import Mathlib

/-!
Verification of the Free Fire ban-checker bot (src/utils.py, src/app.py).

The Python modules are shallowly embedded: Python dictionaries become
association lists, JSON values become an inductive type, the network and
the JSON parser are explicit function parameters, and the process-global
pseudo-random generator is explicit state threaded through the mock
generator.  Machine-level details that no claim touches (float layout of
`0.3`, the exact Mersenne-Twister stream) are kept abstract as parameters,
never fixed to a convenient value.
-/

set_option maxRecDepth 4096

namespace BanCheck

/-- Values of the JSON / dynamic-Python fragment the bot manipulates:
strings, ints, booleans, null/None, arrays and string-keyed objects.
`json.load` always returns string-keyed objects, which is what this type
captures. -/
inductive JsonVal where
  | jStr (s : String)
  | jInt (n : Int)
  | jBool (b : Bool)
  | jNull
  | jArr (elems : List JsonVal)
  | jObj (entries : List (String × JsonVal))

/-- Lookup of a string key in a Python dict modelled as an association
list (first matching entry wins; real dicts have unique keys). -/
def dictLookup (d : List (String × JsonVal)) (k : String) : Option JsonVal :=
  match d with
  | [] => none
  | (k', v) :: rest => if k' = k then some v else dictLookup rest k

/-- Python `d.get(k, default)` on a string-keyed dict. -/
def pyGet (d : List (String × JsonVal)) (k : String) (dflt : JsonVal) : JsonVal :=
  match dictLookup d k with
  | some v => v
  | none => dflt

/-- Python truthiness of a value, as used by `if is_banned:` and
`if is_mock:` in `build_embed_response`. -/
def truthy : JsonVal → Bool
  | .jStr s => s ≠ ""
  | .jInt n => n ≠ 0
  | .jBool b => b
  | .jNull => false
  | .jArr l => !l.isEmpty
  | .jObj e => !e.isEmpty

/-- Python `'id' in data` for a string-keyed dict. -/
def hasKey (d : List (String × JsonVal)) (k : String) : Bool :=
  match d with
  | [] => false
  | (k', _) :: rest => k' = k || hasKey rest k

mutual

/-- Python `str(v)`, as applied by the f-string interpolation
f"\x60{player_id}\x60" in `build_embed_response`.  Exact on the scalar
values that actually flow there (strings pass through verbatim, ints
render in decimal, booleans as True/False, None as None); container
rendering follows Python's repr shape with string escaping not modelled
(no theorem rests on the container cases). -/
def pyToString : JsonVal → String
  | .jStr s => s
  | .jInt n => toString n
  | .jBool b => if b then "True" else "False"
  | .jNull => "None"
  | .jArr l => "[" ++ pyReprList l ++ "]"
  | .jObj e => "\x7b" ++ pyReprObj e ++ "\x7d"

/-- Python `repr(v)`: like `str` except strings gain single quotes. -/
def pyRepr : JsonVal → String
  | .jStr s => "\x27" ++ s ++ "\x27"
  | v => pyToString v

/-- Comma-separated reprs of the elements of a Python list. -/
def pyReprList : List JsonVal → String
  | [] => ""
  | [v] => pyRepr v
  | v :: rest => pyRepr v ++ ", " ++ pyReprList rest

/-- Comma-separated `key: value` reprs of the entries of a Python dict. -/
def pyReprObj : List (String × JsonVal) → String
  | [] => ""
  | [(k, v)] => "\x27" ++ k ++ "\x27: " ++ pyRepr v
  | (k, v) :: rest => "\x27" ++ k ++ "\x27: " ++ pyRepr v ++ ", " ++ pyReprObj rest

end

/-! ### Identifier validator (utils.validate_player_id) -/

/-- Python `str.isdigit` on one character: true when the character has
Unicode property Numeric_Type = Digit or Decimal.  On the ASCII range this
is exactly the digits 0-9; beyond ASCII the property also holds of many
further codepoints, of which a representative fragment is listed here
(superscript and subscript digits, Arabic-Indic, extended Arabic-Indic,
Devanagari, Bengali and fullwidth digits). -/
def pyIsDigitChar (c : Char) : Bool :=
  let n := c.toNat
  (48 ≤ n && n ≤ 57)
  || n == 0xB2 || n == 0xB3 || n == 0xB9
  || (0x660 ≤ n && n ≤ 0x669)
  || (0x6F0 ≤ n && n ≤ 0x6F9)
  || (0x966 ≤ n && n ≤ 0x96F)
  || (0x9E6 ≤ n && n ≤ 0x9EF)
  || n == 0x2070 || (0x2074 ≤ n && n ≤ 0x2079)
  || (0x2080 ≤ n && n ≤ 0x2089)
  || (0xFF10 ≤ n && n ≤ 0xFF19)

/-- Python `s.isdigit()`: false on the empty string, otherwise true iff
every character is a Unicode digit character. -/
def pyIsDigit (s : String) : Bool :=
  decide (s.length > 0) && s.data.all pyIsDigitChar

/-- utils.validate_player_id:
`player_id.isdigit() and len(player_id) <= 20 and len(player_id) >= 6`. -/
def validate_player_id (player_id : String) : Bool :=
  pyIsDigit player_id && decide (player_id.length ≤ 20) && decide (6 ≤ player_id.length)

/-- Matching of the regular expression `^[0-9]\x7b6,20\x7d$`, written out
from the spec's words for comparison with `validate_player_id`: only the
ASCII decimal digits 0-9, length between 6 and 20 inclusive. -/
def specRegexMatch (s : String) : Bool :=
  s.data.all (fun c => 48 ≤ c.toNat && c.toNat ≤ 57)
  && decide (6 ≤ s.length) && decide (s.length ≤ 20)

/-! ### Channel gate (utils.is_allowed_channel) and the restriction map -/

/-- Lookup in the server-to-channel restriction dict (Python
`allowed_channels[guild_id]` / `guild_id in allowed_channels`), keys and
values being Python ints per the annotated type `Dict[int, int]`. -/
def mapLookup (m : List (Int × Int)) (k : Int) : Option Int :=
  match m with
  | [] => none
  | (k', v) :: rest => if k' = k then some v else mapLookup rest k

/-- utils.is_allowed_channel: allow when the guild has no entry, otherwise
allow exactly the mapped channel. -/
def is_allowed_channel (guild_id channel_id : Int) (allowed_channels : List (Int × Int)) : Bool :=
  match mapLookup allowed_channels guild_id with
  | none => true
  | some v => channel_id == v

/-- Python `allowed_channels[guild_id] = channel_id` (app.set_restricted_channel):
replace the entry of an existing key in place, else append. -/
def mapInsert (m : List (Int × Int)) (k v : Int) : List (Int × Int) :=
  match m with
  | [] => [(k, v)]
  | (k', v') :: rest => if k' = k then (k, v) :: rest else (k', v') :: mapInsert rest k v

/-- Python `del allowed_channels[guild_id]` (app.remove_channel_restriction):
drop the entry of the key.  Real dict keys are unique, so dropping every
occurrence agrees with deleting the single one. -/
def mapRemove (m : List (Int × Int)) (k : Int) : List (Int × Int) :=
  match m with
  | [] => []
  | (k', v') :: rest => if k' = k then mapRemove rest k else (k', v') :: mapRemove rest k

/-! ### Config store (utils.save_bot_config / load_bot_config,
app.save_allowed_channels / load_allowed_channels) -/

/-- Keys of the in-memory Python dicts involved in the config round trip:
the runtime `allowed_channels` dict is annotated `Dict[int, int]`, while a
dict parsed back from JSON has `str` keys. -/
inductive PyKey where
  | kInt (n : Int)
  | kStr (s : String)
deriving DecidableEq

/-- How `json.dump` writes a dict key: string keys verbatim, int keys as
their decimal representation (CPython serializes non-string keys with
`str(key)`; only int and str keys occur in this program). -/
def dumpKey : PyKey → String
  | .kInt n => toString n
  | .kStr s => s

/-- The JSON document written by app.save_allowed_channels through
utils.save_bot_config, given as the value `json.load` parses it back to:
`\x7b'allowed_channels': m, 'updated_at': ..., 'developer': 'Digamber Raj'\x7d`
with every key of the inner dict serialized by `dumpKey`, so the entries
re-enter as string-keyed. -/
def save_allowed_channels (m : List (PyKey × Int)) (updated_at : String) : JsonVal :=
  .jObj [("allowed_channels", .jObj (m.map fun kv => (dumpKey kv.1, .jInt kv.2))),
         ("updated_at", .jStr updated_at),
         ("developer", .jStr "Digamber Raj")]

/-- app.load_allowed_channels: the value assigned to the global
`allowed_channels` when the loaded config contains that key (`if
'allowed_channels' in config: allowed_channels = config['allowed_channels']`),
`none` when nothing is assigned. -/
def load_allowed_channels (config : JsonVal) : Option JsonVal :=
  match config with
  | .jObj entries => dictLookup entries "allowed_channels"
  | _ => none

/-- A parsed JSON object seen as the Python dict it is: every key is a
Python `str`. -/
def loadedChannelDict (m : List (String × JsonVal)) : List (PyKey × JsonVal) :=
  m.map fun kv => (PyKey.kStr kv.1, kv.2)

/-- Python dict lookup with `PyKey` keys (Python `int` and `str` keys never
compare equal: `123 == "123"` is `False`). -/
def pyDictLookup (d : List (PyKey × JsonVal)) (k : PyKey) : Option JsonVal :=
  match d with
  | [] => none
  | (k', v) :: rest => if k' = k then some v else pyDictLookup rest k

/-- States of the config file as seen by utils.load_bot_config. -/
inductive PyFile where
  | missing
  | unreadable
  | readable (content : String)

/-- The Python exceptions distinguished by this module: the ones
utils.load_bot_config handles, and the `NameError` raised inside the
handler chain of utils.get_player_status (see there). -/
inductive PyErr where
  | jsonDecodeError
  | osError
  | nameError
  | otherError

/-- The default configuration returned by utils.load_bot_config on every
failure path. -/
def defaultConfig : JsonVal :=
  .jObj [("allowed_channels", .jObj []), ("developer", .jStr "Digamber Raj")]

/-- The body of utils.load_bot_config before its exception handlers:
a missing file takes the `else` branch and returns the default, opening an
unreadable file raises `OSError`, and `json.load` either returns the parsed
value or raises `json.JSONDecodeError` (modelled by the `parse` parameter). -/
def load_bot_config_body (parse : String → Except PyErr JsonVal) :
    PyFile → Except PyErr JsonVal
  | .missing => .ok defaultConfig
  | .unreadable => .error .osError
  | .readable s => parse s

/-- utils.load_bot_config: the body wrapped in its two exception handlers,
`except json.JSONDecodeError` and `except Exception`, each returning the
default configuration. -/
def load_bot_config (parse : String → Except PyErr JsonVal) (f : PyFile) :
    Except PyErr JsonVal :=
  match load_bot_config_body parse f with
  | .ok v => .ok v
  | .error .jsonDecodeError => .ok defaultConfig
  | .error _ => .ok defaultConfig

/-! ### Mock fallback (utils.mock_player_status) -/

/-- utils.MOCK_PLAYER_NAMES. -/
def MOCK_PLAYER_NAMES : List String :=
  ["ProPlayer", "ShadowNinja", "FireStorm", "IceQueen", "DarkKnight",
   "LightWarrior", "MysticSage", "ThunderBolt", "VenomStrike", "PhoenixRise",
   "CyberHunter", "GhostWalker", "DragonSlayer", "BlazeMaster", "FrostLord",
   "SteelTitan", "NightWolf", "SunFlare", "MoonDancer", "StarChaser"]

/-- The process-global pseudo-random generator of Python's `random` module,
abstracted over its state type: `seedFn` models `random.seed`, `randomFn`
models `random.random` (a rational in [0,1)), and `randbelowFn n` models
the index draw inside `random.choice` (an index below `n`).  Within one
process these are fixed deterministic functions; their exact values
(Mersenne Twister) are not needed by any claim. -/
structure PRNG (σ : Type) where
  seedFn : Int → σ
  randomFn : σ → Rat × σ
  randbelowFn : σ → Nat → Nat × σ

/-- utils.mock_player_status.  `pyHash` is the process's string hash
(`hash(player_id)` — fixed within a process, randomized across processes);
the incoming generator state `s0` is overwritten by `random.seed(hash(player_id)
% 1000)` (Python's `%` on a positive modulus is the Euclidean remainder).
The literal `0.3` is modelled by the rational 3/10: `random.random()` draws
lie on the 2^-53 grid, on which the nearest-double rounding of 0.3 and 3/10
cut identically. -/
def mock_player_status {σ : Type} (pyHash : String → Int) (prng : PRNG σ)
    (player_id : String) (now : String) (s0 : σ) :
    List (String × JsonVal) × σ :=
  let _ := s0
  let s1 := prng.seedFn (Int.emod (pyHash player_id) 1000)
  let rs := prng.randomFn s1
  let is_banned : Bool := decide (rs.1 < 3/10)
  let idxPair := prng.randbelowFn rs.2 MOCK_PLAYER_NAMES.length
  let player_name := MOCK_PLAYER_NAMES.getD idxPair.1 ""
  ([("id", .jStr player_id), ("name", .jStr player_name),
    ("banned", .jBool is_banned), ("mock", .jBool true),
    ("timestamp", .jStr now)], idxPair.2)

/-! ### Status resolver (utils.get_player_status and the endpoint loop of
app.check_ban) -/

/-- Outcomes of one outbound HTTP request as distinguished by
utils.get_player_status: a response with a status code and a body text, or
one of the exception classes (`aiohttp.ClientError`, `asyncio.TimeoutError`,
any other exception). -/
inductive HttpResult where
  | response (status : Nat) (body : String)
  | clientError
  | timedOut
  | otherFailure

/-- utils.get_player_status.  The try body requests `api_url + player_id`
and, on a status-200 response whose body parses to a dict containing the
key "id", returns that dict; a non-200 status, a body `json.loads` rejects
(the inner handler) or a wrongly shaped value return `None`.  Of the outer
exception handlers only `except aiohttp.ClientError` is operative:
utils.py never imports `asyncio`, so when any other exception reaches the
handler chain, evaluating the clause `except asyncio.TimeoutError:` raises
`NameError: name 'asyncio' is not defined` out of the function, and the
final `except Exception` clause is unreachable.  In particular a timeout
of the request — the `asyncio.TimeoutError` that very clause targets —
escapes as `NameError` instead of producing `None`. -/
def get_player_status (net : String → HttpResult)
    (parse : String → Except PyErr JsonVal)
    (player_id api_url : String) : Except PyErr (Option JsonVal) :=
  let full_url := api_url ++ player_id
  match net full_url with
  | .response status body =>
    if status = 200 then
      match parse body with
      | .ok data =>
        match data with
        | .jObj entries =>
          if hasKey entries "id" then .ok (some (.jObj entries)) else .ok none
        | _ => .ok none
      | .error _ => .ok none
    else .ok none
  | .clientError => .ok none
  | .timedOut => .error .nameError
  | .otherFailure => .error .nameError

/-- The endpoint loop of app.check_ban: try each endpoint in order via
`lookupE` (one `get_player_status` call per endpoint) and stop at the
first accepted record (an accepted dict contains "id", hence is truthy for
the `if status_data: break`); an exception escaping a lookup propagates
and aborts the loop — it is caught only by check_ban's outer handler,
which reports a generic failure without consulting further endpoints or
the mock fallback. -/
def check_ban_attempts (lookupE : String → Except PyErr (Option JsonVal)) :
    List String → Except PyErr (Option JsonVal)
  | [] => .ok none
  | e :: rest =>
    match lookupE e with
    | .error err => .error err
    | .ok (some d) => .ok (some d)
    | .ok none => check_ban_attempts lookupE rest

/-- The endpoints actually queried by the loop of app.check_ban, in order:
the loop issues one lookup per visited list element and stops after the
first success or the first escaping exception. -/
def queried_endpoints (lookupE : String → Except PyErr (Option JsonVal)) :
    List String → List String
  | [] => []
  | e :: rest =>
    match lookupE e with
    | .error _ => [e]
    | .ok (some _) => [e]
    | .ok none => e :: queried_endpoints lookupE rest

/-- app.API_ENDPOINTS. -/
def API_ENDPOINTS : List String :=
  ["http://raw.thug4ff.com/check_ban/check_ban/",
   "https://raw.thug4ff.com/check_ban/check_ban/"]

/-! ### Response formatter (utils.build_embed_response) and translations -/

/-- utils.BANNED_EMOJI. -/
def BANNED_EMOJI : String := "<a:emoji_48:1430083636425920673>"

/-- utils.NOT_BANNED_EMOJI. -/
def NOT_BANNED_EMOJI : String := "<a:emoji_18:1430082305032192000>"

/-- One template bundle of utils.load_translations (the `banned` /
`not_banned` sub-dicts). -/
structure TransBundle where
  title : String
  description : String
  footer : String

/-- The field-label sub-dict of utils.load_translations. -/
structure TransFieldNames where
  player_id : String
  player_name : String
  status : String

/-- One language entry of utils.load_translations, restricted to the keys
consumed by utils.build_embed_response (the `errors`, `language_set` and
`guilds` strings are read only by command handlers outside the claims). -/
structure Translation where
  banned : TransBundle
  not_banned : TransBundle
  fieldNames : TransFieldNames

/-- The `en` entry of utils.load_translations. -/
def enTranslation : Translation where
  banned :=
    { title := "Account Banned"
      description := "This player account has been **permanently banned** from Free Fire."
      footer := "Violation detected" }
  not_banned :=
    { title := "Account Clean"
      description := "This player account is **not banned** and can play normally."
      footer := "No violations found" }
  fieldNames :=
    { player_id := "Player ID"
      player_name := "Player Name"
      status := "Ban Status" }

/-- The `fr` entry of utils.load_translations. -/
def frTranslation : Translation where
  banned :=
    { title := "Compte Banni"
      description := "Ce compte joueur a été **définitivement banni** de Free Fire."
      footer := "Violation détectée" }
  not_banned :=
    { title := "Compte Propre"
      description := "Ce compte joueur **n\x27est pas banni** et peut jouer normalement."
      footer := "Aucune violation trouvée" }
  fieldNames :=
    { player_id := "ID du Joueur"
      player_name := "Nom du Joueur"
      status := "Statut du Bannissement" }

/-- utils.load_translations, as the lookup `translations[lang]` performed by
utils.build_embed_response: the table has exactly the keys "en" and "fr";
any other language raises `KeyError`, modelled by `none`. -/
def load_translations (lang : String) : Option Translation :=
  if lang = "en" then some enTranslation
  else if lang = "fr" then some frTranslation
  else none

/-- One display field of a Discord embed: `embed.add_field(name=..., value=...,
inline=...)`.  The value is kept as the Python object handed over (the code
passes `player_name` through unconverted and f-string-converts the id). -/
structure EmbedField where
  name : String
  value : JsonVal
  inline : Bool

/-- The components of the `discord.Embed` built by
utils.build_embed_response: title, color, creation timestamp, ordered field
list and footer text. -/
structure Embed where
  title : String
  color : Nat
  timestamp : String
  fields : List EmbedField
  footer : String

/-- utils.build_embed_response.  `now` is the value of `datetime.utcnow()`
at the call; the lookup `translations[lang]` propagates a `KeyError`
(`none`) for a language outside the table. -/
def build_embed_response (status_data : List (String × JsonVal))
    (lang : String) (now : String) : Option Embed :=
  match load_translations lang with
  | none => none
  | some t =>
    let player_id := pyGet status_data "id" (.jStr "N/A")
    let is_banned := truthy (pyGet status_data "banned" (.jBool false))
    let player_name := pyGet status_data "name" (.jStr "Unknown")
    let is_mock := truthy (pyGet status_data "mock" (.jBool false))
    let title := if is_banned
      then BANNED_EMOJI ++ " " ++ t.banned.title
      else NOT_BANNED_EMOJI ++ " " ++ t.not_banned.title
    let color : Nat := if is_banned then 0xFF0000 else 0x00FF00
    let status_text := if is_banned then t.banned.description else t.not_banned.description
    let footer_text := if is_banned then t.banned.footer else t.not_banned.footer
    some
      { title := title
        color := color
        timestamp := now
        fields :=
          [{ name := t.fieldNames.player_id
             value := .jStr ("\x60" ++ pyToString player_id ++ "\x60")
             inline := true },
           { name := t.fieldNames.player_name
             value := player_name
             inline := true },
           { name := t.fieldNames.status
             value := .jStr status_text
             inline := false }]
        footer := if is_mock
          then footer_text ++ " • Demo Data • Developer: Digamber Raj"
          else footer_text ++ " • Developer: Digamber Raj" }

/-- Containment of `pat` as a contiguous run inside `l`. -/
def listContainsSub (pat : List Char) : List Char → Bool
  | [] => pat.isEmpty
  | c :: rest => pat.isPrefixOf (c :: rest) || listContainsSub pat rest

/-- Substring containment on strings (used to state "the footer contains
the demo-mode marker"). -/
def containsSub (s pat : String) : Bool :=
  listContainsSub pat.data s.data

/-- The demo-mode marker appended to the footer for mock records. -/
def demoMarker : String := "Demo Data"

/-- The timestamp-free view of an embed: title, color, field list, footer. -/
def embedStable (e : Embed) : String × Nat × List EmbedField × String :=
  (e.title, e.color, e.fields, e.footer)

/-! ## Helper lemmas -/

theorem mapLookup_mapInsert_self (m : List (Int × Int)) (k v : Int) :
    mapLookup (mapInsert m k v) k = some v := by
  induction m with
  | nil => simp [mapInsert, mapLookup]
  | cons kv rest ih =>
    by_cases h : kv.1 = k <;> simp [mapInsert, mapLookup, h, ih]

theorem mapLookup_mapRemove_self (m : List (Int × Int)) (k : Int) :
    mapLookup (mapRemove m k) k = none := by
  induction m with
  | nil => rfl
  | cons kv rest ih =>
    by_cases h : kv.1 = k <;> simp [mapRemove, mapLookup, h, ih]

theorem all_eq_of_pointwise {l : List Char} {f g : Char → Bool}
    (h : ∀ c ∈ l, f c = g c) : l.all f = l.all g := by
  induction l with
  | nil => rfl
  | cons a t ih =>
    simp only [List.all_cons, h a (by simp), ih fun c hc => h c (by simp [hc])]

theorem pyIsDigitChar_ascii (c : Char) (h : c.toNat < 128) :
    pyIsDigitChar c = (decide (48 ≤ c.toNat) && decide (c.toNat ≤ 57)) := by
  rw [Bool.eq_iff_iff]
  simp only [pyIsDigitChar, Bool.or_eq_true, Bool.and_eq_true, decide_eq_true_eq, beq_iff_eq]
  omega

/-! ## Claims -/

/-- Claim C3: the channel gate allows every channel of a server absent from
the restriction map, allows the mapped channel of a present server, and
denies every other channel of a present server. -/
theorem channel_gate_cases (g c : Int) (m : List (Int × Int)) :
    (mapLookup m g = none → is_allowed_channel g c m = true) ∧
    (mapLookup m g = some c → is_allowed_channel g c m = true) ∧
    (∀ v, mapLookup m g = some v → v ≠ c → is_allowed_channel g c m = false) := by
  refine ⟨fun h => ?_, fun h => ?_, fun v h hne => ?_⟩
  · simp [is_allowed_channel, h]
  · simp [is_allowed_channel, h]
  · simp [is_allowed_channel, h]
    omega

/-- Witness for C3 at concrete inputs: server 1 unrestricted, then
restricted to channel 2; channel 2 is allowed and channel 3 denied. -/
theorem channel_gate_cases_witness :
    is_allowed_channel 1 2 [] = true ∧
    is_allowed_channel 1 2 [(1, 2)] = true ∧
    is_allowed_channel 1 3 [(1, 2)] = false :=
  ⟨(channel_gate_cases 1 2 []).1 rfl,
   (channel_gate_cases 1 2 [(1, 2)]).2.1 (by decide),
   (channel_gate_cases 1 3 [(1, 2)]).2.2 2 (by decide) (by decide)⟩

/-- Counterexample to claim C4 as stated: once the entry (server 1 ↦
channel 2) is set, `is_allowed_channel` is false for more than one channel
of that server (both 3 and 4 are denied), so there is no unique denied
channel. -/
theorem channel_gate_denies_many :
    ¬ ∃! c : Int, is_allowed_channel 1 c (mapInsert [] 1 2) = false := by
  rintro ⟨c, _, hu⟩
  have h3 : (3 : Int) = c := hu 3 (by decide)
  have h4 : (4 : Int) = c := hu 4 (by decide)
  omega

/-- Claim C4 as amended: with no entry every channel is allowed; once an
entry is set, `is_allowed_channel` is true for exactly the one mapped
channel (hence false for every other channel of that server); after the
entry is removed every channel is allowed again. -/
theorem channel_gate_set_remove (g a c : Int) (m : List (Int × Int)) :
    (mapLookup m g = none → is_allowed_channel g c m = true) ∧
    (is_allowed_channel g c (mapInsert m g a) = true ↔ c = a) ∧
    is_allowed_channel g c (mapRemove (mapInsert m g a) g) = true := by
  refine ⟨fun h => by simp [is_allowed_channel, h], ?_, ?_⟩
  · simp [is_allowed_channel, mapLookup_mapInsert_self]
  · simp [is_allowed_channel, mapLookup_mapRemove_self]

/-- Witness for C4 (amended) at concrete inputs: server 5 starts
unrestricted, is restricted to channel 7 (7 allowed), and after removal
channel 9 is allowed again. -/
theorem channel_gate_set_remove_witness :
    is_allowed_channel 5 7 [] = true ∧
    is_allowed_channel 5 7 (mapInsert [] 5 7) = true ∧
    is_allowed_channel 5 9 (mapRemove (mapInsert [] 5 7) 5) = true :=
  ⟨(channel_gate_set_remove 5 7 7 []).1 rfl,
   (channel_gate_set_remove 5 7 7 []).2.1.mpr rfl,
   (channel_gate_set_remove 5 7 9 []).2.2⟩

/-- The superscript-two character U+00B2, a Unicode digit that is not an
ASCII digit (Python: `"\xb2".isdigit()` is `True`). -/
def superTwo : Char := Char.ofNat 0xB2

/-- A six-character identifier made of superscript twos. -/
def nonAsciiDigits : String := ⟨List.replicate 6 superTwo⟩

/-- Counterexample to claim C2 as stated: the validator accepts the
six-character string of superscript twos, which does not match
`^[0-9]\x7b6,20\x7d$`. -/
theorem validator_accepts_non_ascii :
    validate_player_id nonAsciiDigits = true ∧
    specRegexMatch nonAsciiDigits = false := by
  constructor <;> decide

/-- Claim C2 as amended: the validator returns true iff the string is
non-empty, every character is a Unicode digit character (`str.isdigit`),
and the length is between 6 and 20; restricted to ASCII strings this
coincides with matching `^[0-9]\x7b6,20\x7d$`. -/
theorem validator_regex_on_ascii (s : String)
    (h : ∀ c ∈ s.data, c.toNat < 128) :
    validate_player_id s = specRegexMatch s := by
  have hall : s.data.all pyIsDigitChar =
      s.data.all (fun c => decide (48 ≤ c.toNat) && decide (c.toNat ≤ 57)) :=
    all_eq_of_pointwise fun c hc => pyIsDigitChar_ascii c (h c hc)
  rw [Bool.eq_iff_iff]
  simp only [validate_player_id, specRegexMatch, pyIsDigit, hall,
    Bool.and_eq_true, decide_eq_true_eq]
  constructor
  · rintro ⟨⟨⟨h0, ha⟩, h20⟩, h6⟩
    exact ⟨⟨ha, h6⟩, h20⟩
  · rintro ⟨⟨ha, h6⟩, h20⟩
    exact ⟨⟨⟨by omega, ha⟩, h20⟩, h6⟩

/-- Witness for C2 (amended) at the ASCII identifier "123456". -/
theorem validator_regex_on_ascii_witness :
    validate_player_id "123456" = specRegexMatch "123456" :=
  validator_regex_on_ascii "123456" (by decide)

/-- Claim C1, evaluated at the failing input: saving the restriction map
\x7b123456: 654321\x7d (one server id mapped to one channel id, both Python
ints per the declared type) and loading it back yields a map whose sole key
is the *string* "123456", not the integer 123456 — the key sets differ, in
particular the integer server id no longer looks up anything. -/
theorem config_roundtrip_stringifies_keys :
    load_allowed_channels
        (save_allowed_channels [(PyKey.kInt 123456, 654321)] "2026-01-01T00:00:00") =
      some (.jObj [("123456", .jInt 654321)]) ∧
    loadedChannelDict [("123456", .jInt 654321)] =
      [(PyKey.kStr "123456", .jInt 654321)] ∧
    PyKey.kStr "123456" ≠ PyKey.kInt 123456 ∧
    pyDictLookup [(PyKey.kStr "123456", .jInt 654321)] (PyKey.kInt 123456) = none := by
  refine ⟨rfl, rfl, by decide, rfl⟩

/-- Claim C7: the config loader never propagates an error, and on a missing
file, an unreadable file, or content the JSON parser rejects it returns the
default configuration, whose allowed-channels mapping is the empty dict. -/
theorem load_config_total (parse : String → Except PyErr JsonVal) (f : PyFile) :
    (∃ v, load_bot_config parse f = .ok v) ∧
    ((f = .missing ∨ f = .unreadable ∨ ∃ s e, f = .readable s ∧ parse s = .error e) →
      load_bot_config parse f = .ok defaultConfig) ∧
    load_allowed_channels defaultConfig = some (.jObj []) := by
  refine ⟨?_, ?_, rfl⟩
  · cases f with
    | missing => exact ⟨defaultConfig, rfl⟩
    | unreadable => exact ⟨defaultConfig, rfl⟩
    | readable s =>
      cases hp : parse s with
      | ok v => exact ⟨v, by simp [load_bot_config, load_bot_config_body, hp]⟩
      | error e =>
        cases e <;> exact ⟨defaultConfig, by simp [load_bot_config, load_bot_config_body, hp]⟩
  · rintro (rfl | rfl | ⟨s, e, rfl, hp⟩)
    · rfl
    · rfl
    · cases e <;> simp [load_bot_config, load_bot_config_body, hp]

/-- Witness for C7: a missing file together with an always-failing parser
still yields the default configuration. -/
theorem load_config_total_witness :
    load_bot_config (fun _ => .error .jsonDecodeError) .missing = .ok defaultConfig :=
  (load_config_total (fun _ => .error .jsonDecodeError) .missing).2.1 (Or.inl rfl)

/-- Claim C5: within one process (one string-hash function, one
pseudo-random generator), two mock lookups of the same identifier return
the same `banned` and the same `name`, whatever generator state each call
starts from and whenever each call happens — `random.seed` overwrites the
incoming state with a value derived only from the identifier. -/
theorem mock_status_deterministic {σ : Type} (pyHash : String → Int)
    (prng : PRNG σ) (player_id : String) (now1 now2 : String) (s1 s2 : σ) :
    pyGet (mock_player_status pyHash prng player_id now1 s1).1 "banned" .jNull =
      pyGet (mock_player_status pyHash prng player_id now2 s2).1 "banned" .jNull ∧
    pyGet (mock_player_status pyHash prng player_id now1 s1).1 "name" .jNull =
      pyGet (mock_player_status pyHash prng player_id now2 s2).1 "name" .jNull :=
  ⟨rfl, rfl⟩

theorem queried_endpoints_sublist (lookupE : String → Except PyErr (Option JsonVal)) :
    ∀ eps : List String, (queried_endpoints lookupE eps).Sublist eps
  | [] => .slnil
  | e :: rest => by
    unfold queried_endpoints
    cases lookupE e with
    | error err => exact (List.nil_sublist rest).cons₂ e
    | ok o =>
      cases o with
      | some d => exact (List.nil_sublist rest).cons₂ e
      | none => exact (queried_endpoints_sublist lookupE rest).cons₂ e

/-- Each endpoint of a list is queried at most as often as it occurs
there; in particular each of the two distinct configured endpoints is
queried at most once per invocation. -/
theorem queried_endpoints_no_retry (lookupE : String → Except PyErr (Option JsonVal))
    (eps : List String) (ep : String) :
    (queried_endpoints lookupE eps).count ep ≤ eps.count ep :=
  (queried_endpoints_sublist lookupE eps).count_le ep

theorem count_api_endpoints_le_one (ep : String) : API_ENDPOINTS.count ep ≤ 1 := by
  by_cases h1 : ep = "http://raw.thug4ff.com/check_ban/check_ban/"
  · subst h1; decide
  · by_cases h2 : ep = "https://raw.thug4ff.com/check_ban/check_ban/"
    · subst h2; decide
    · have h0 : API_ENDPOINTS.count ep = 0 := by
        simp [API_ENDPOINTS, List.count_cons, List.count_nil, h1, h2, eq_comm]
      omega

/-- Whatever each lookup returns, the loop queries each of the two
distinct configured endpoints at most once per invocation. -/
theorem queried_api_endpoints_at_most_once
    (lookupE : String → Except PyErr (Option JsonVal)) (ep : String) :
    (queried_endpoints lookupE API_ENDPOINTS).count ep ≤ 1 :=
  le_trans (queried_endpoints_no_retry lookupE API_ENDPOINTS ep)
    (count_api_endpoints_le_one ep)

/-- Claim C6, evaluated at the failing input (player id "123456", the
request to the first configured endpoint timing out): the lookup does not
return "no record" — it raises `NameError` (utils.py never imports
`asyncio`, so the clause `except asyncio.TimeoutError:` itself fails when
consulted) — and the endpoint loop of check_ban aborts with that error
after querying only the first endpoint, never reaching the second.  By
contrast a network error of the handled class (`aiohttp.ClientError`) at
the same input does return "no record", and a healthy 200 response with an
"id"-bearing object is accepted. -/
theorem timeout_raises_instead_of_none :
    get_player_status (fun _ => .timedOut) (fun _ => .error .jsonDecodeError)
        "123456" "http://raw.thug4ff.com/check_ban/check_ban/" =
      .error .nameError ∧
    check_ban_attempts
        (fun e => get_player_status (fun _ => .timedOut)
          (fun _ => .error .jsonDecodeError) "123456" e)
        API_ENDPOINTS = .error .nameError ∧
    queried_endpoints
        (fun e => get_player_status (fun _ => .timedOut)
          (fun _ => .error .jsonDecodeError) "123456" e)
        API_ENDPOINTS = ["http://raw.thug4ff.com/check_ban/check_ban/"] ∧
    get_player_status (fun _ => .clientError) (fun _ => .error .jsonDecodeError)
        "123456" "http://raw.thug4ff.com/check_ban/check_ban/" = .ok none ∧
    get_player_status (fun _ => .response 200 "body")
        (fun _ => .ok (.jObj [("id", .jStr "1")])) "123456"
        "http://raw.thug4ff.com/check_ban/check_ban/" =
      .ok (some (.jObj [("id", .jStr "1")])) :=
  ⟨rfl, rfl, rfl, rfl, rfl⟩

/-- A concrete status record for the claim about repeated formatter calls. -/
def sampleRecord : List (String × JsonVal) :=
  [("id", .jStr "123456"), ("name", .jStr "ProPlayer"),
   ("banned", .jBool false), ("mock", .jBool false)]

/-- Counterexample to claim C8 as stated: the embed carries the clock
reading of the call (`timestamp=datetime.utcnow()`), so two calls with the
same record and language made at different instants yield payloads that are
not identical in every component. -/
theorem formatter_differs_across_calls :
    build_embed_response sampleRecord "en" "2026-01-01T00:00:00" ≠
      build_embed_response sampleRecord "en" "2026-01-01T00:00:01" := by
  intro h
  have h1 : (build_embed_response sampleRecord "en" "2026-01-01T00:00:00").map
      Embed.timestamp = some "2026-01-01T00:00:00" := rfl
  rw [h] at h1
  have h2 : (build_embed_response sampleRecord "en" "2026-01-01T00:00:01").map
      Embed.timestamp = some "2026-01-01T00:00:01" := rfl
  rw [h2] at h1
  exact absurd (Option.some.inj h1) (by decide)

/-- Claim C8 as amended: apart from the embed timestamp, which records the
call instant, the formatter is a pure function of the record and the
language — title, color, field list and footer agree between any two
calls. -/
theorem formatter_stable_components (d : List (String × JsonVal))
    (lang now1 now2 : String) :
    (build_embed_response d lang now1).map embedStable =
      (build_embed_response d lang now2).map embedStable := by
  unfold build_embed_response
  cases load_translations lang <;> rfl

theorem load_translations_cases {lang : String} {t : Translation}
    (h : load_translations lang = some t) :
    t = enTranslation ∨ t = frTranslation := by
  unfold load_translations at h
  by_cases h1 : lang = "en"
  · simp only [h1, if_pos rfl] at h
    exact Or.inl (Option.some.inj h).symm
  · by_cases h2 : lang = "fr"
    · simp only [h1, if_false, h2, if_pos rfl, if_neg h1] at h
      exact Or.inr (Option.some.inj h).symm
    · simp [h1, h2] at h

/-- Claim C9: for a language in the table, the payload uses the banned
bundle with color 0xFF0000 when the record is banned and the not-banned
bundle with 0x00FF00 otherwise; its field list is exactly the quoted
player id (inline), the player name (inline) and the ban-status
description (full-width), in that order; and its footer contains the
demo-mode marker exactly when the record's mock flag is truthy. -/
theorem formatter_payload_shape (d : List (String × JsonVal)) (lang : String)
    (t : Translation) (now : String) (ht : load_translations lang = some t) :
    ∃ e, build_embed_response d lang now = some e ∧
      (truthy (pyGet d "banned" (.jBool false)) = true →
        e.title = BANNED_EMOJI ++ " " ++ t.banned.title ∧ e.color = 0xFF0000) ∧
      (truthy (pyGet d "banned" (.jBool false)) = false →
        e.title = NOT_BANNED_EMOJI ++ " " ++ t.not_banned.title ∧
        e.color = 0x00FF00) ∧
      e.fields =
        [{ name := t.fieldNames.player_id
           value := .jStr ("\x60" ++ pyToString (pyGet d "id" (.jStr "N/A")) ++ "\x60")
           inline := true },
         { name := t.fieldNames.player_name
           value := pyGet d "name" (.jStr "Unknown")
           inline := true },
         { name := t.fieldNames.status
           value := .jStr (if truthy (pyGet d "banned" (.jBool false))
             then t.banned.description else t.not_banned.description)
           inline := false }] ∧
      (containsSub e.footer demoMarker = true ↔
        truthy (pyGet d "mock" (.jBool false)) = true) := by
  simp only [build_embed_response, ht]
  refine ⟨_, rfl, ?_, ?_, ?_, ?_⟩
  · intro hb; simp [hb]
  · intro hb; simp [hb]
  · cases hb : truthy (pyGet d "banned" (.jBool false)) <;> simp [hb]
  · rcases load_translations_cases ht with rfl | rfl <;>
      cases hb : truthy (pyGet d "banned" (.jBool false)) <;>
      cases hm : truthy (pyGet d "mock" (.jBool false)) <;>
      simp [hb, hm] <;> decide

/-- Witness for C9 at a concrete banned+mock record in English. -/
theorem formatter_payload_shape_witness :
    ∃ e, build_embed_response [("banned", .jBool true), ("mock", .jBool true)]
        "en" "T0" = some e ∧
      (truthy (pyGet [("banned", .jBool true), ("mock", .jBool true)] "banned"
          (.jBool false)) = true →
        e.title = BANNED_EMOJI ++ " " ++ enTranslation.banned.title ∧
        e.color = 0xFF0000) ∧
      (truthy (pyGet [("banned", .jBool true), ("mock", .jBool true)] "banned"
          (.jBool false)) = false →
        e.title = NOT_BANNED_EMOJI ++ " " ++ enTranslation.not_banned.title ∧
        e.color = 0x00FF00) ∧
      e.fields =
        [{ name := enTranslation.fieldNames.player_id
           value := .jStr ("\x60" ++ pyToString (pyGet [("banned", .jBool true),
             ("mock", .jBool true)] "id" (.jStr "N/A")) ++ "\x60")
           inline := true },
         { name := enTranslation.fieldNames.player_name
           value := pyGet [("banned", .jBool true), ("mock", .jBool true)]
             "name" (.jStr "Unknown")
           inline := true },
         { name := enTranslation.fieldNames.status
           value := .jStr (if truthy (pyGet [("banned", .jBool true),
               ("mock", .jBool true)] "banned" (.jBool false))
             then enTranslation.banned.description
             else enTranslation.not_banned.description)
           inline := false }] ∧
      (containsSub e.footer demoMarker = true ↔
        truthy (pyGet [("banned", .jBool true), ("mock", .jBool true)] "mock"
          (.jBool false)) = true) :=
  formatter_payload_shape [("banned", .jBool true), ("mock", .jBool true)]
    "en" enTranslation "T0" rfl

/-- Claim C10: for a language of the closed set the formatter succeeds on
any record dict, substituting "N/A" for a missing id, "Unknown" for a
missing name, not-banned (green) for a missing banned flag and no demo
marker for a missing mock flag. -/
theorem formatter_defaults (d : List (String × JsonVal)) (lang now : String)
    (h : lang = "en" ∨ lang = "fr") :
    ∃ e, build_embed_response d lang now = some e ∧
      (dictLookup d "id" = none →
        (e.fields.map EmbedField.value).get? 0 = some (.jStr "\x60N/A\x60")) ∧
      (dictLookup d "name" = none →
        (e.fields.map EmbedField.value).get? 1 = some (.jStr "Unknown")) ∧
      (dictLookup d "banned" = none → e.color = 0x00FF00) ∧
      (dictLookup d "mock" = none → containsSub e.footer demoMarker = false) := by
  have ht : ∃ t, load_translations lang = some t := by
    rcases h with rfl | rfl
    · exact ⟨enTranslation, rfl⟩
    · exact ⟨frTranslation, rfl⟩
  obtain ⟨t, ht⟩ := ht
  simp only [build_embed_response, ht]
  refine ⟨_, rfl, ?_, ?_, ?_, ?_⟩
  · intro h0; simp [pyGet, h0, pyToString]
  · intro h0; simp [pyGet, h0]
  · intro h0; simp [pyGet, h0, truthy]
  · intro h0
    rcases load_translations_cases ht with rfl | rfl <;>
      cases hb : truthy (pyGet d "banned" (.jBool false)) <;>
      simp [pyGet, h0, truthy, hb] <;> decide

/-- Witness for C10 at the empty record dict in English. -/
theorem formatter_defaults_witness :
    ∃ e, build_embed_response [] "en" "T0" = some e ∧
      (dictLookup [] "id" = none →
        (e.fields.map EmbedField.value).get? 0 = some (.jStr "\x60N/A\x60")) ∧
      (dictLookup [] "name" = none →
        (e.fields.map EmbedField.value).get? 1 = some (.jStr "Unknown")) ∧
      (dictLookup [] "banned" = none → e.color = 0x00FF00) ∧
      (dictLookup [] "mock" = none → containsSub e.footer demoMarker = false) :=
  formatter_defaults [] "en" "T0" (Or.inl rfl)

end BanCheck
